import Mathlib

/-!
Shallow embedding of the concurrent client harness `script.py`.

The script opens `NUM_CLIENTS` TCP connections to `HOST:PORT`, sends an
HTTP/1.1 GET request per client, sleeps 100 ms, reads up to 1024 bytes,
prints one outcome line per client, and closes the socket in a `finally`
block.  Bytes are modelled as `List Nat`, Python strings as `List Char`,
and the network's behaviour for one client as an explicit environment
record (`NetEnv`).  Python's `str(n)` for a non-negative integer is the
standard decimal rendering, which is exactly `Nat.toDigits 10 n`.
-/

namespace Webserver

/-- `HOST = "127.0.0.1"` from `script.py`. -/
def HOST : List Char := "127.0.0.1".toList

/-- `PORT = 8080` from `script.py`. -/
def PORT : Nat := 8080

/-- `NUM_CLIENTS = 20` from `script.py`. -/
def NUM_CLIENTS : Nat := 20

/-- Python's `str(n)` for a non-negative integer: decimal digits, no sign,
no leading zeros, `"0"` for zero.  `Nat.toDigits 10` computes exactly this. -/
def natStr (n : Nat) : List Char := Nat.toDigits 10 n

/-- The request string built in `client` (`script.py` lines 15-20):
`f"GET / HTTP/1.1\r\nHost: {HOST}:{PORT}\r\nUser-Agent: TestClient-{id}\r\n\r\n"`. -/
def request (id : Nat) : List Char :=
  "GET / HTTP/1.1\r\n".toList
    ++ ("Host: ".toList ++ HOST ++ [':'] ++ natStr PORT ++ "\r\n".toList)
    ++ ("User-Agent: TestClient-".toList ++ natStr id ++ "\r\n".toList)
    ++ "\r\n".toList

/-- The blank-line terminator `\r\n\r\n` that ends the HTTP headers. -/
def headerEnd : List Char := ['\r', '\n', '\r', '\n']

/-- Everything of the request that precedes the stringified client id. -/
def reqPfx : List Char :=
  "GET / HTTP/1.1\r\nHost: 127.0.0.1:8080\r\nUser-Agent: TestClient-".toList

/-- `hasPfx p s` is true iff the character list `s` starts with `p`. -/
def hasPfx : List Char → List Char → Bool
  | [], _ => true
  | _ :: _, [] => false
  | p :: ps, c :: cs => decide (p = c) && hasPfx ps cs

/-- Number of positions of `s` (including the empty suffix position) at which
the pattern `p` occurs as a prefix of the suffix starting there. -/
def countSub (p : List Char) : List Char → Nat
  | [] => if hasPfx p [] then 1 else 0
  | c :: t => (if hasPfx p (c :: t) then 1 else 0) + countSub p t

/-- UTF-8 encoding of one Unicode code point, as Python's `str.encode()`
produces it (1 to 4 bytes depending on the code point). -/
def encodeChar (c : Char) : List Nat :=
  let n := c.toNat
  if n < 0x80 then [n]
  else if n < 0x800 then [0xC0 + n / 64, 0x80 + n % 64]
  else if n < 0x10000 then
    [0xE0 + n / 4096, 0x80 + (n / 64) % 64, 0x80 + n % 64]
  else
    [0xF0 + n / 262144, 0x80 + (n / 4096) % 64, 0x80 + (n / 64) % 64,
      0x80 + n % 64]

/-- UTF-8 encoding of a whole string (`str.encode()` in the script). -/
def utf8Encode : List Char → List Nat
  | [] => []
  | c :: cs => encodeChar c ++ utf8Encode cs

/-- A UTF-8 continuation byte: `0x80`–`0xBF`. -/
def isCont (b : Nat) : Bool := 0x80 ≤ b && b ≤ 0xBF

/-- Strict UTF-8 validity of a byte sequence (RFC 3629), as enforced by
Python's `bytes.decode()` with the default strict `utf-8` codec: rejects
overlong forms, surrogate code points and code points above `U+10FFFF`. -/
def validUtf8 : List Nat → Bool
  | [] => true
  | b :: bs =>
    if b ≤ 0x7F then validUtf8 bs
    else
      match bs with
      | [] => false
      | b1 :: bs1 =>
        if 0xC2 ≤ b && b ≤ 0xDF then isCont b1 && validUtf8 bs1
        else
          match bs1 with
          | [] => false
          | b2 :: bs2 =>
            if b = 0xE0 then
              (0xA0 ≤ b1 && b1 ≤ 0xBF) && isCont b2 && validUtf8 bs2
            else if 0xE1 ≤ b && b ≤ 0xEC then
              isCont b1 && isCont b2 && validUtf8 bs2
            else if b = 0xED then
              (0x80 ≤ b1 && b1 ≤ 0x9F) && isCont b2 && validUtf8 bs2
            else if 0xEE ≤ b && b ≤ 0xEF then
              isCont b1 && isCont b2 && validUtf8 bs2
            else
              match bs2 with
              | [] => false
              | b3 :: bs3 =>
                if b = 0xF0 then
                  (0x90 ≤ b1 && b1 ≤ 0xBF) && isCont b2 && isCont b3
                    && validUtf8 bs3
                else if 0xF1 ≤ b && b ≤ 0xF3 then
                  isCont b1 && isCont b2 && isCont b3 && validUtf8 bs3
                else if b = 0xF4 then
                  (0x80 ≤ b1 && b1 ≤ 0x8F) && isCont b2 && isCont b3
                    && validUtf8 bs3
                else false

/-- The exact bytes `client` sends: `request.encode()` in `script.py`. -/
def payloadBytes (id : Nat) : List Nat := utf8Encode (request id)

/-- What one client's network environment does at each fallible step.
`socketFail`/`connectFail`/`sendFail` carry the textual description of the
raised exception when that step fails (`none` = step succeeds);
`recvResult` is either a receive-side exception or the bytes available to
the 1024-byte-capped `recv` call. -/
structure NetEnv where
  socketFail : Option String
  connectFail : Option String
  sendFail : Option String
  recvResult : Except String (List Nat)

/-- The per-client outcome line the script prints: `Recibido` with the
received bytes (success) or `Error` with a description (failure). -/
inductive Outcome where
  | success (data : List Nat)
  | failure (msg : String)
deriving DecidableEq

/-- Observable result of one `client(id)` call: the single outcome line it
prints, the exception (if any) that propagates out of the call, and the
socket lifecycle facts. -/
structure ClientTrace where
  outcome : Outcome
  raised : Option String
  socketCreated : Bool
  socketClosed : Bool
  sentBytes : Option (List Nat)
deriving DecidableEq

/-- The exception Python raises when the `finally` block evaluates `s`
after `socket.socket(...)` itself failed, leaving `s` unbound. -/
def unboundLocalMsg : String :=
  "UnboundLocalError: local variable s referenced before assignment"

/-- Stand-in for the message of Python's `UnicodeDecodeError`, raised by
`data.decode()` on bytes that are not valid UTF-8. -/
def decodeErrorMsg : String := "UnicodeDecodeError"

/-- Shallow embedding of `client(id)` (`script.py` lines 9-28).

Path analysis of the `try`/`except Exception`/`finally` structure:
* `socket.socket` raises → `except` prints the error line, then `finally`
  evaluates the unbound local `s` and an `UnboundLocalError` propagates out
  of `client`; no socket ever existed.
* `connect`/`sendall` raise → `except` prints the error line, `finally`
  closes the socket.
* `recv` raises → same, but the payload was already sent.
* `recv` returns bytes → `data = s.recv(1024)` caps the read at 1024
  bytes; `data.decode()` then either succeeds (strict UTF-8), giving the
  `Recibido` success line, or raises `UnicodeDecodeError`, which the
  `except` turns into an error line; `finally` closes the socket.
`time.sleep(0.1)` only delays and changes no observable state. -/
def clientRun (id : Nat) (env : NetEnv) : ClientTrace :=
  match env.socketFail with
  | some e =>
      { outcome := .failure e, raised := some unboundLocalMsg,
        socketCreated := false, socketClosed := false, sentBytes := none }
  | none =>
    match env.connectFail with
    | some e =>
        { outcome := .failure e, raised := none,
          socketCreated := true, socketClosed := true, sentBytes := none }
    | none =>
      match env.sendFail with
      | some e =>
          { outcome := .failure e, raised := none,
            socketCreated := true, socketClosed := true, sentBytes := none }
      | none =>
        match env.recvResult with
        | .error e =>
            { outcome := .failure e, raised := none,
              socketCreated := true, socketClosed := true,
              sentBytes := some (payloadBytes id) }
        | .ok avail =>
            let data := avail.take 1024
            if validUtf8 data then
              { outcome := .success data, raised := none,
                socketCreated := true, socketClosed := true,
                sentBytes := some (payloadBytes id) }
            else
              { outcome := .failure decodeErrorMsg, raised := none,
                socketCreated := true, socketClosed := true,
                sentBytes := some (payloadBytes id) }

/-- The client ids the orchestration code launches
(`threads = [threading.Thread(target=client, args=(i,)) for i in range(NUM_CLIENTS)]`
followed by unconditional `t.start()` for every thread): one worker per id
in `[0, n)`, with no validation of any configuration value beforehand. -/
def launchedIds (n : Nat) : List Nat := List.range n

/-- One completed run, viewed per client id: every launched worker runs
`client(i)` against its own network environment and contributes its single
outcome line.  (`for t in threads: t.join()` makes the run wait for all.) -/
def runOutcomes (n : Nat) (envs : Nat → NetEnv) : List (Nat × Outcome) :=
  (launchedIds n).map fun i => (i, (clientRun i (envs i)).outcome)

/-- The outcome lines in the order they are actually emitted: each thread
prints its own line when it finishes, so the on-screen sequence follows the
completion order `order` (some permutation of the launched ids), not the
client-id order. -/
def runEmitted (envs : Nat → NetEnv) (order : List Nat) :
    List (Nat × Outcome) :=
  order.map fun i => (i, (clientRun i (envs i)).outcome)

/-- The run parameters of the script, generalized from the hard-coded
literals `PORT = 8080` and `NUM_CLIENTS = 20` (the source file invites
editing them in place). -/
structure RunConfig where
  port : Nat
  numClients : Nat
deriving DecidableEq

/-- Modelled from the spec: the validity condition the spec requires to be
checked before any connection attempt (`client_count ≥ 1` and `port` in
1–65535).  The script itself contains no such check. -/
def validConfig (c : RunConfig) : Bool :=
  1 ≤ c.numClients && (1 ≤ c.port && c.port ≤ 65535)

/-- What the script launches under a given configuration: one client per id
in `[0, numClients)`, unconditionally — the source has no validation step
between the constant definitions and the thread launch loop. -/
def scriptLaunchedIds (c : RunConfig) : List Nat := launchedIds c.numClients

/-- A network environment in which every step succeeds and the peer sends
nothing back. -/
def envOk : NetEnv :=
  { socketFail := none, connectFail := none, sendFail := none,
    recvResult := .ok [] }

theorem natStr_PORT : natStr PORT = "8080".toList := by decide

/-- The request is a fixed literal prefix, then the decimal client id,
then the blank-line terminator. -/
theorem request_decomp (id : Nat) :
    request id = reqPfx ++ (natStr id ++ headerEnd) := by
  have h : "GET / HTTP/1.1\r\n".toList
      ++ ("Host: ".toList ++ HOST ++ [':'] ++ natStr PORT ++ "\r\n".toList)
      ++ "User-Agent: TestClient-".toList = reqPfx := by decide
  simp only [request, headerEnd, ← h]
  simp [List.append_assoc]

/-- Digit characters produced by `Nat.toDigitsCore 10` either come from the
accumulator or are `Nat.digitChar d` for some `d < 10`. -/
theorem mem_toDigitsCore {fuel n : Nat} {ds : List Char} {c : Char}
    (hc : c ∈ Nat.toDigitsCore 10 fuel n ds) :
    c ∈ ds ∨ ∃ d, d < 10 ∧ c = Nat.digitChar d := by
  induction fuel generalizing n ds with
  | zero => exact Or.inl hc
  | succ fuel ih =>
    simp only [Nat.toDigitsCore] at hc
    split at hc
    · rcases List.mem_cons.mp hc with h | h
      · exact Or.inr ⟨n % 10, Nat.mod_lt _ (by decide), h⟩
      · exact Or.inl h
    · rcases ih hc with h | h
      · rcases List.mem_cons.mp h with h' | h'
        · exact Or.inr ⟨n % 10, Nat.mod_lt _ (by decide), h'⟩
        · exact Or.inl h'
      · exact Or.inr h

/-- Every character of the decimal rendering of a natural number is one of
the ten digit characters. -/
theorem natStr_digits {n : Nat} {c : Char} (hc : c ∈ natStr n) :
    ∃ d, d < 10 ∧ c = Nat.digitChar d := by
  rcases mem_toDigitsCore hc with h | h
  · simp at h
  · exact h

theorem natStr_no_cr {n : Nat} {c : Char} (hc : c ∈ natStr n) : c ≠ '\r' := by
  rcases natStr_digits hc with ⟨d, hd, rfl⟩
  have : ∀ d, d < 10 → Nat.digitChar d ≠ '\r' := by decide
  exact this d hd

theorem natStr_ascii {n : Nat} {c : Char} (hc : c ∈ natStr n) : c.toNat < 128 := by
  rcases natStr_digits hc with ⟨d, hd, rfl⟩
  have : ∀ d, d < 10 → (Nat.digitChar d).toNat < 128 := by decide
  exact this d hd

/-- A pattern starting with `'\r'` never matches at a position inside a
`'\r'`-free block, so the block can be discarded when counting. -/
theorem countSub_append_no_cr {ps : List Char} {xs : List Char}
    (hx : ∀ c ∈ xs, c ≠ '\r') (ys : List Char) :
    countSub ('\r' :: ps) (xs ++ ys) = countSub ('\r' :: ps) ys := by
  induction xs with
  | nil => rfl
  | cons c t ih =>
    have hc : c ≠ '\r' := hx c (List.mem_cons_self c t)
    have hpf : hasPfx ('\r' :: ps) (c :: (t ++ ys)) = false := by
      simp [hasPfx]
      intro h
      exact absurd h.symm hc
    rw [List.cons_append]
    simp only [countSub, hpf, Bool.false_eq_true, if_false, Nat.zero_add]
    exact ih (fun c hcm => hx c (List.mem_cons_of_mem _ hcm))

theorem headerEnd_count_self : countSub headerEnd headerEnd = 1 := by decide

/-- An isolated `\r\n` pair (followed by a character other than `'\r'`)
contributes no occurrence of a pattern that starts with `\r\n\r`. -/
theorem countSub_crlf_skip {ps : List Char} {c : Char} {zs : List Char}
    (hc : c ≠ '\r') :
    countSub ('\r' :: '\n' :: '\r' :: ps) ('\r' :: '\n' :: c :: zs) =
      countSub ('\r' :: '\n' :: '\r' :: ps) (c :: zs) := by
  have hc' : ¬('\r' = c) := fun h => hc h.symm
  have h1 : hasPfx ('\r' :: '\n' :: '\r' :: ps) ('\r' :: '\n' :: c :: zs) = false := by
    simp [hasPfx, hc']
  have h2 : hasPfx ('\r' :: '\n' :: '\r' :: ps) ('\n' :: c :: zs) = false := by
    simp [hasPfx]
  simp only [countSub, h1, h2, Bool.false_eq_true, if_false]
  omega

/-- The request of any client contains exactly one `\r\n\r\n`, the
terminator at its very end: the two interior `\r\n` pairs are each followed
by a header character, and the decimal id contributes no `'\r'`. -/
theorem countSub_headerEnd_request (id : Nat) :
    countSub headerEnd (request id) = 1 := by
  have hdecomp : request id =
      "GET / HTTP/1.1".toList ++
        ('\r' :: '\n' :: 'H' ::
          ("ost: 127.0.0.1:8080".toList ++
            ('\r' :: '\n' :: 'U' ::
              ("ser-Agent: TestClient-".toList ++ (natStr id ++ headerEnd))))) := by
    rw [request_decomp]
    have h : reqPfx =
        "GET / HTTP/1.1".toList ++
          ('\r' :: '\n' :: 'H' ::
            ("ost: 127.0.0.1:8080".toList ++
              ('\r' :: '\n' :: 'U' :: "ser-Agent: TestClient-".toList))) := by
      decide
    rw [h]
    simp [List.append_assoc]
  rw [hdecomp]
  show countSub ('\r' :: ['\n', '\r', '\n']) _ = 1
  rw [countSub_append_no_cr (by decide)]
  rw [countSub_crlf_skip (by decide)]
  show countSub ('\r' :: ['\n', '\r', '\n'])
      (('H' :: "ost: 127.0.0.1:8080".toList) ++ _) = 1
  rw [countSub_append_no_cr (by decide)]
  rw [countSub_crlf_skip (by decide)]
  show countSub ('\r' :: ['\n', '\r', '\n'])
      (('U' :: "ser-Agent: TestClient-".toList) ++ (natStr id ++ headerEnd)) = 1
  rw [countSub_append_no_cr (by decide)]
  rw [countSub_append_no_cr (fun c hc => natStr_no_cr hc)]
  decide

/-- Every character of any client's request is ASCII. -/
theorem request_ascii {id : Nat} {c : Char} (hc : c ∈ request id) :
    c.toNat < 128 := by
  rw [request_decomp] at hc
  rcases List.mem_append.mp hc with h | h
  · have hp : ∀ c ∈ reqPfx, c.toNat < 128 := by decide
    exact hp c h
  · rcases List.mem_append.mp h with h' | h'
    · exact natStr_ascii h'
    · have he : ∀ c ∈ headerEnd, c.toNat < 128 := by decide
      exact he c h'

/-- UTF-8 encoding of an all-ASCII string is the identity on code points. -/
theorem utf8Encode_ascii {s : List Char} (h : ∀ c ∈ s, c.toNat < 128) :
    utf8Encode s = s.map Char.toNat := by
  induction s with
  | nil => rfl
  | cons c cs ih =>
    have hc : c.toNat < 128 := h c (List.mem_cons_self _ _)
    have he : encodeChar c = [c.toNat] := by simp [encodeChar, hc]
    simp [utf8Encode, he, ih (fun x hx => h x (List.mem_cons_of_mem _ hx))]

/-- A byte sequence that stays below `0x80` is valid UTF-8. -/
theorem validUtf8_of_ascii {l : List Nat} (h : ∀ b ∈ l, b ≤ 0x7F) :
    validUtf8 l = true := by
  induction l with
  | nil => rfl
  | cons b bs ih =>
    have hb : b ≤ 0x7F := h b (List.mem_cons_self _ _)
    unfold validUtf8
    rw [if_pos hb]
    exact ih (fun x hx => h x (List.mem_cons_of_mem _ hx))

/-- The payload any client sends decodes cleanly as UTF-8. -/
theorem payloadBytes_valid (id : Nat) : validUtf8 (payloadBytes id) = true := by
  have hs : ∀ c ∈ request id, c.toNat < 128 := fun c hc => request_ascii hc
  rw [payloadBytes, utf8Encode_ascii hs]
  apply validUtf8_of_ascii
  intro b hb
  rcases List.mem_map.mp hb with ⟨c, hc, rfl⟩
  have := hs c hc
  omega

/-- On every path of `client`, the socket-closed flag equals the
socket-created flag: the `finally` block closes the socket whenever one was
created, and when creation itself failed there is no socket to close. -/
theorem clientRun_closed_eq_created (id : Nat) (env : NetEnv) :
    (clientRun id env).socketClosed = (clientRun id env).socketCreated := by
  rcases env with ⟨sf, cf, wf, rr⟩
  cases sf <;> cases cf <;> cases wf <;> rcases rr with e | avail <;>
    first
      | rfl
      | (simp only [clientRun]; split <;> rfl)

/-- C1.  The claim states that `client` never propagates an exception to
its caller.  The code contradicts it: when `socket.socket(...)` itself
raises (e.g. `OSError: Too many open files`), the `except` block does print
the per-client error line, but the `finally` block then evaluates the
never-assigned local `s`, and the resulting `UnboundLocalError` propagates
out of `client`.  This theorem evaluates the embedded `client` at that
failing input. -/
theorem c1_socket_creation_failure_raises :
    (clientRun 0
        ⟨some "OSError: Too many open files", none, none, Except.ok []⟩).raised
        = some unboundLocalMsg ∧
      (clientRun 0
        ⟨some "OSError: Too many open files", none, none, Except.ok []⟩).outcome
        = .failure "OSError: Too many open files" :=
  ⟨rfl, rfl⟩

/-- C2.  For every client count `N ≥ 1` and every behaviour of the network,
a completed run yields exactly `N` outcome lines, one per client id, with
the ids exactly `0, …, N-1` (unique, in range, none dropped or repeated):
every path through `client` prints exactly one outcome line. -/
theorem c2_run_produces_unique_outcomes (N : Nat) (envs : Nat → NetEnv)
    (h : 1 ≤ N) :
    (runOutcomes N envs).length = N ∧
    (runOutcomes N envs).map Prod.fst = List.range N ∧
    ((runOutcomes N envs).map Prod.fst).Nodup ∧
    ∀ p ∈ runOutcomes N envs, p.1 < N := by
  have hmap : (runOutcomes N envs).map Prod.fst = List.range N := by
    rw [runOutcomes, launchedIds, List.map_map]
    exact List.map_id'' (fun _ => rfl) _
  refine ⟨by simp [runOutcomes, launchedIds], hmap, ?_, ?_⟩
  · rw [hmap]
    exact List.nodup_range N
  · intro p hp
    simp only [runOutcomes, launchedIds, List.mem_map, List.mem_range] at hp
    rcases hp with ⟨i, hi, rfl⟩
    exact hi

theorem c2_witness :
    (runOutcomes 3 (fun _ => envOk)).length = 3 ∧
    (runOutcomes 3 (fun _ => envOk)).map Prod.fst = List.range 3 ∧
    ((runOutcomes 3 (fun _ => envOk)).map Prod.fst).Nodup ∧
    ∀ p ∈ runOutcomes 3 (fun _ => envOk), p.1 < 3 :=
  c2_run_produces_unique_outcomes 3 (fun _ => envOk) (by decide)

/-- C3, counterexample.  The claim states that the emitted outcome lines
are sorted by client id in every run.  In the code each thread prints its
own line when it finishes, so the on-screen order is the completion order:
for the valid completion order `[1, 0]` of a 2-client run the emitted ids
are `[1, 0]`, not the sorted `[0, 1]`. -/
theorem c3_counterexample :
    ([1, 0] : List Nat).Perm (List.range 2) ∧
    (runEmitted (fun _ => envOk) [1, 0]).map Prod.fst = [1, 0] ∧
    (runEmitted (fun _ => envOk) [1, 0]).map Prod.fst ≠ List.range 2 := by
  refine ⟨by decide, rfl, by decide⟩

/-- C3, amended.  The outcome lines are emitted in completion order, one
line per client: for every completion order (a permutation of the launched
ids) the emitted id sequence is exactly that order, hence a permutation of
`0, …, N-1` of length `N` — but not necessarily sorted by client id. -/
theorem c3_amended_emitted_in_completion_order (N : Nat)
    (envs : Nat → NetEnv) (order : List Nat)
    (h : order.Perm (List.range N)) :
    (runEmitted envs order).map Prod.fst = order ∧
    ((runEmitted envs order).map Prod.fst).Perm (List.range N) ∧
    (runEmitted envs order).length = N := by
  have hm : (runEmitted envs order).map Prod.fst = order := by
    rw [runEmitted, List.map_map]
    exact List.map_id'' (fun _ => rfl) _
  refine ⟨hm, ?_, ?_⟩
  · rw [hm]
    exact h
  · rw [runEmitted, List.length_map, h.length_eq, List.length_range]

theorem c3_witness :
    (runEmitted (fun _ => envOk) [1, 0]).map Prod.fst = [1, 0] ∧
    ((runEmitted (fun _ => envOk) [1, 0]).map Prod.fst).Perm (List.range 2) ∧
    (runEmitted (fun _ => envOk) [1, 0]).length = 2 :=
  c3_amended_emitted_in_completion_order 2 (fun _ => envOk) [1, 0] (by decide)

/-- C4, counterexample.  The claim states that every invalid configuration
is rejected with a `ConfigurationError` before any connection attempt, so
that zero clients are launched.  The script contains no validation at all:
under the invalid configuration `port = 70000, numClients = 3` it launches
all three clients, and a launched client whose environment permits it does
create a socket (socket creation does not consult the port). -/
theorem c4_counterexample :
    validConfig ⟨70000, 3⟩ = false ∧
    scriptLaunchedIds ⟨70000, 3⟩ = [0, 1, 2] ∧
    (clientRun 0 envOk).socketCreated = true := by
  refine ⟨by decide, by decide, rfl⟩

/-- C4, amended.  The source performs no configuration validation: for
every configuration, valid or not, the launch loop starts exactly
`numClients` clients (ids `0, …, numClients-1`); the hard-coded
configuration `port = 8080, NUM_CLIENTS = 20` happens to satisfy the
spec's validity condition. -/
theorem c4_amended_no_validation (c : RunConfig) :
    (scriptLaunchedIds c).length = c.numClients ∧
    scriptLaunchedIds c = List.range c.numClients ∧
    validConfig ⟨PORT, NUM_CLIENTS⟩ = true :=
  ⟨List.length_range c.numClients, rfl, by decide⟩

/-- C5.  For every client id, the HTTP payload is well-formed: it starts
with the request line `GET / HTTP/1.1`, contains a `Host` header naming
the configured `host:port`, contains a `User-Agent` header embedding the
stringified client id, contains exactly one `\r\n\r\n` blank-line
terminator, and has no body (the terminator is the very end of the
payload). -/
theorem c5_request_wellformed (id : Nat) :
    (∃ t, "GET / HTTP/1.1".toList ++ t = request id) ∧
    (∃ s t,
      s ++ ("Host: ".toList ++ HOST ++ [':'] ++ natStr PORT) ++ t
        = request id) ∧
    (∃ s t,
      s ++ ("User-Agent: TestClient-".toList ++ natStr id) ++ t
        = request id) ∧
    countSub headerEnd (request id) = 1 ∧
    (∃ s, s ++ headerEnd = request id) := by
  refine ⟨⟨"\r\nHost: 127.0.0.1:8080\r\nUser-Agent: TestClient-".toList
        ++ (natStr id ++ headerEnd), ?_⟩,
    ⟨"GET / HTTP/1.1\r\n".toList,
      "\r\nUser-Agent: TestClient-".toList ++ (natStr id ++ headerEnd), ?_⟩,
    ⟨"GET / HTTP/1.1\r\nHost: 127.0.0.1:8080\r\n".toList, headerEnd, ?_⟩,
    countSub_headerEnd_request id,
    ⟨reqPfx ++ natStr id, ?_⟩⟩ <;>
  · rw [request_decomp]
    rfl

/-- C6, counterexample.  The claim states that the outcome does not depend
on the content of the received bytes.  It does: with identical
environments except for the response body, the one-byte response `0x48`
(valid UTF-8) is reported as a success while the one-byte response `0xFF`
(not valid UTF-8) makes `data.decode()` raise and is reported as a
failure. -/
theorem c6_counterexample :
    (clientRun 0 ⟨none, none, none, Except.ok [72]⟩).outcome
        = .success [72] ∧
    (clientRun 0 ⟨none, none, none, Except.ok [255]⟩).outcome
        = .failure decodeErrorMsg :=
  ⟨rfl, rfl⟩

/-- C6, amended.  Success reporting decodes the received bytes as strict
UTF-8 for display: the outcome is independent of whether the response is
valid HTTP or has any other structure, but it does depend on UTF-8
decodability — any received byte sequence that decodes is a success
carrying those bytes, and any that does not decode is a failure. -/
theorem c6_amended_opaque_up_to_utf8 (id : Nat) (env : NetEnv)
    (data : List Nat)
    (h1 : env.socketFail = none) (h2 : env.connectFail = none)
    (h3 : env.sendFail = none) (h4 : env.recvResult = .ok data) :
    (validUtf8 (data.take 1024) = true →
        (clientRun id env).outcome = .success (data.take 1024)) ∧
    (validUtf8 (data.take 1024) = false →
        (clientRun id env).outcome = .failure decodeErrorMsg) := by
  constructor <;> intro hv <;> simp [clientRun, h1, h2, h3, h4, hv]

theorem c6_witness :
    (validUtf8 (([72] : List Nat).take 1024) = true →
        (clientRun 0 ⟨none, none, none, Except.ok [72]⟩).outcome
          = .success (([72] : List Nat).take 1024)) ∧
    (validUtf8 (([72] : List Nat).take 1024) = false →
        (clientRun 0 ⟨none, none, none, Except.ok [72]⟩).outcome
          = .failure decodeErrorMsg) :=
  c6_amended_opaque_up_to_utf8 0 ⟨none, none, none, Except.ok [72]⟩ [72]
    rfl rfl rfl rfl

/-- C7.  Round trip against an echo collaborator: if socket creation,
connect and send all succeed and the bytes available to `recv` are exactly
the payload this client sent, then (for payloads within the 1024-byte read
cap, which holds for every realistic client id) the outcome is a success
whose received bytes equal the sent payload — the payload is pure ASCII,
so it survives the UTF-8 decode in the success path. -/
theorem c7_echo_roundtrip (id : Nat) (env : NetEnv)
    (h1 : env.socketFail = none) (h2 : env.connectFail = none)
    (h3 : env.sendFail = none)
    (h4 : env.recvResult = .ok (payloadBytes id))
    (h5 : (payloadBytes id).length ≤ 1024) :
    (clientRun id env).sentBytes = some (payloadBytes id) ∧
    (clientRun id env).outcome = .success (payloadBytes id) := by
  have htake : (payloadBytes id).take 1024 = payloadBytes id :=
    List.take_of_length_le h5
  have hv := payloadBytes_valid id
  constructor <;> simp [clientRun, h1, h2, h3, h4, htake, hv]

theorem c7_witness :
    (payloadBytes 0).length ≤ 1024 ∧
    (clientRun 0 ⟨none, none, none, Except.ok (payloadBytes 0)⟩).sentBytes
        = some (payloadBytes 0) ∧
    (clientRun 0 ⟨none, none, none, Except.ok (payloadBytes 0)⟩).outcome
        = .success (payloadBytes 0) :=
  ⟨by decide,
    c7_echo_roundtrip 0 ⟨none, none, none, Except.ok (payloadBytes 0)⟩
      rfl rfl rfl rfl (by decide)⟩

/-- C8.  On every exit path of `client` on which a socket was created —
success or failure at connect, send, receive or decode — the `finally`
block closes it, so no run leaks a socket. -/
theorem c8_socket_closed (id : Nat) (env : NetEnv)
    (h : (clientRun id env).socketCreated = true) :
    (clientRun id env).socketClosed = true := by
  rw [clientRun_closed_eq_created]
  exact h

theorem c8_witness :
    (clientRun 0 envOk).socketCreated = true ∧
    (clientRun 0 envOk).socketClosed = true :=
  ⟨rfl, c8_socket_closed 0 envOk rfl⟩

/-- C9.  Payload construction is deterministic: the bytes produced for a
client depend only on the client id (with the fixed host and port), so two
invocations with the same id produce byte-identical output. -/
theorem c9_payload_deterministic (id1 id2 : Nat) (h : id1 = id2) :
    payloadBytes id1 = payloadBytes id2 := by
  rw [h]

theorem c9_witness : payloadBytes 5 = payloadBytes 5 :=
  c9_payload_deterministic 5 5 rfl

/-- C10, counterexample.  The claim's final clause states that, once
connect and send succeed, only a read error or timeout yields a failure.
Not so: here `recv` succeeds and returns the single byte `0xC8`, yet the
outcome is a failure, because `data.decode()` raises on bytes that are not
valid UTF-8 (the sent-bytes field witnesses that connect and send
succeeded). -/
theorem c10_counterexample :
    (clientRun 1 ⟨none, none, none, Except.ok [200]⟩).sentBytes
        = some (payloadBytes 1) ∧
    (clientRun 1 ⟨none, none, none, Except.ok [200]⟩).outcome
        = .failure decodeErrorMsg :=
  ⟨rfl, rfl⟩

/-- C10, amended.  For every client whose socket creation, connect and
send succeed: a zero-byte read (peer closed without data) is reported as a
success with zero bytes received, not as a failure, and a read error or
timeout is reported as a failure carrying its description (a successfully
read response that fails UTF-8 decoding is also reported as a failure). -/
theorem c10_amended_zero_byte_success (id : Nat) (env : NetEnv)
    (h1 : env.socketFail = none) (h2 : env.connectFail = none)
    (h3 : env.sendFail = none) :
    (env.recvResult = .ok [] →
        (clientRun id env).outcome = .success []) ∧
    (∀ e, env.recvResult = .error e →
        (clientRun id env).outcome = .failure e) := by
  constructor
  · intro h4
    simp [clientRun, h1, h2, h3, h4, show validUtf8 [] = true from rfl]
  · intro e h4
    simp [clientRun, h1, h2, h3, h4]

theorem c10_witness :
    (envOk.recvResult = .ok [] →
        (clientRun 0 envOk).outcome = .success []) ∧
    (∀ e, envOk.recvResult = .error e →
        (clientRun 0 envOk).outcome = .failure e) :=
  c10_amended_zero_byte_success 0 envOk rfl rfl rfl

end Webserver
